import Mathlib

/-!
Verification development for the voice-segmentation and text-analysis tool.

The Python sources are shallowly embedded:
* transcript text is `List Char` (Python `str` indexed by code points);
* Python `float` values (timestamps, scores) are idealised as exact
  rationals `ℚ` -- every property proved here is structural and does not
  depend on rounding of binary floating point;
* Python `int` millisecond boundaries are `Int`;
* fallible code returns `Except`; the `TypeError` raised by
  `split_by_markers` when it builds the final sub-segment (the list
  comprehension rebinds the underscore to the relation type and compares
  it with an `int`, which plain `Enum` values do not support) is modelled
  by `PyError.typeError`;
* the external LLM collaborator (topic extraction, paragraph analysis) is
  passed in as an `Except`-valued function parameter.
-/

namespace VoiceTool

set_option maxRecDepth 4000

set_option autoImplicit false

/-- Helper turning a string literal into the `List Char` text representation. -/
def kw (s : String) : List Char := s.toList

/-- models/document.py: RelationType enumeration (the Chinese display values
are irrelevant to the pipeline logic and are omitted). -/
inductive RelationType where
  | CONTRAST
  | ADDITION
  | CAUSALITY
  | REFERENCE_BACK
  | SUMMARY
  | EXAMPLE
  | PARALLEL
  | UNKNOWN
deriving DecidableEq

/-- models/document.py: ParagraphRelation dataclass. -/
structure ParagraphRelation where
  source_id : String
  target_id : String
  relation_type : RelationType
  marker_words : List (List Char) := []
  confidence : ℚ := 0
  description : String := ""
deriving DecidableEq

/-- models/document.py: Segment dataclass.  Field defaults follow the
dataclass defaults. -/
structure Segment where
  id : String
  start_time : ℚ
  end_time : ℚ
  audio_path : String
  text : List Char := []
  markers : List (List Char) := []
  topics : List String := []
  importance_score : ℚ := 1/2
  relations : List ParagraphRelation := []
  confidence : ℚ := 0
  is_core_argument : Bool := false
deriving DecidableEq

/-- models/document.py: Segment.duration. -/
def Segment.duration (seg : Segment) : ℚ := seg.end_time - seg.start_time

/-- models/document.py: LogicChain dataclass. -/
structure LogicChain where
  chain_id : String
  chain_type : String
  segments : List String
  description : String := ""
  importance : ℚ := 1/2
deriving DecidableEq

/-- Model of Python `int(x)` on a real value: truncation toward zero.  On a
rational in lowest terms (denominator positive) this is the truncating
division of numerator by denominator. -/
def pyInt (q : ℚ) : Int := q.num.tdiv q.den

/-- Floor of a rational, written on the reduced fraction so that it
evaluates by kernel reduction.  Models Python float floor division
results. -/
def ratFloor (q : ℚ) : Int := q.num.fdiv q.den

/-- Model of Python `min` on two values (ties keep the first argument). -/
def pyMin (a b : ℚ) : ℚ := if a ≤ b then a else b

/-- Model of Python `max` on two values (ties keep the first argument). -/
def pyMax (a b : ℚ) : ℚ := if b ≤ a then a else b

/-- Model of Python `str.strip()`: remove whitespace from both ends. -/
def pyStrip (s : List Char) : List Char :=
  ((s.dropWhile Char.isWhitespace).reverse.dropWhile Char.isWhitespace).reverse

/-- Stable insertion of an element in front of the first list entry that is
not strictly smaller.  Building block of `pySort`. -/
def pyInsert {α : Type} (le : α → α → Bool) (x : α) : List α → List α
  | [] => [x]
  | y :: ys => if le x y then x :: y :: ys else y :: pyInsert le x ys

/-- Model of Python `list.sort` / `sorted`: a stable ascending sort.  For a
total preorder `le` a stable insertion sort returns exactly the sequence
Python's stable sort returns. -/
def pySort {α : Type} (le : α → α → Bool) : List α → List α
  | [] => []
  | x :: xs => pyInsert le x (pySort le xs)

/-- core/semantic_analyzer.py: the static SEMANTIC_MARKERS lexicon, in dict
insertion order (dict iteration order in Python is insertion order). -/
def SEMANTIC_MARKERS : List (RelationType × List (List Char)) :=
  [ (RelationType.CONTRAST,
      [kw ("但是"), kw ("然而"), kw ("不过"), kw ("可是"),
       kw ("反过来说"), kw ("相反"), kw ("相对而言"), kw ("与此相反")]),
    (RelationType.ADDITION,
      [kw ("而且"), kw ("并且"), kw ("还有"), kw ("另外"),
       kw ("此外"), kw ("再者"), kw ("同时"), kw ("以及")]),
    (RelationType.CAUSALITY,
      [kw ("所以"), kw ("因此"), kw ("因为"), kw ("由于"),
       kw ("导致"), kw ("结果"), kw ("因而"), kw ("从而")]),
    (RelationType.REFERENCE_BACK,
      [kw ("回过头来讲"), kw ("前面说到"), kw ("刚才提到"),
       kw ("之前讲过"), kw ("如前所述"), kw ("正如我说的")]),
    (RelationType.SUMMARY,
      [kw ("总之"), kw ("综上所述"), kw ("总的来说"),
       kw ("概括来说"), kw ("归纳起来"), kw ("简而言之")]),
    (RelationType.EXAMPLE,
      [kw ("比如"), kw ("例如"), kw ("譬如"), kw ("比方说"),
       kw ("举例来说"), kw ("就像")]) ]

/-- All keyword strings of the lexicon, flattened. -/
def allKeywords : List (List Char) := SEMANTIC_MARKERS.flatMap fun cfg => cfg.2

/-- Does `pat` occur in `text` starting at offset `i`?  (Exact slice
comparison, as a regex literal match does.) -/
def matchesAt (text pat : List Char) (i : Nat) : Bool :=
  ((text.drop i).take pat.length) == pat

/-- Model of Python `pat in text` (substring containment), used by
`detect_markers`. -/
def containsSub (pat text : List Char) : Bool :=
  (List.range (text.length + 1)).any fun i => matchesAt text pat i

/-- Model of the Python regex word-character class `\w` restricted to the
character repertoire of this code base: ASCII alphanumerics, underscore and
CJK unified ideographs (U+4E00..U+9FFF) are word characters; CJK punctuation
(U+3002, U+FF0C, ...) and whitespace are not. -/
def isWordChar (c : Char) : Bool :=
  c.isAlphanum || c == '_' || (0x4E00 ≤ c.toNat && c.toNat ≤ 0x9FFF)

/-- Is the character at offset `i` (if any) a word character? -/
def isWordAt (text : List Char) (i : Nat) : Bool :=
  match text[i]? with
  | some c => isWordChar c
  | none => false

/-- Model of the regex anchor `\b` at offset `p`: exactly one of the two
adjacent positions holds a word character (positions outside the text count
as non-word). -/
def wordBoundaryAt (text : List Char) (p : Nat) : Bool :=
  (if p = 0 then false else isWordAt text (p - 1)) != isWordAt text p

/-- Scanning worker for `finditerWB`: try offsets left to right, and after a
match resume after its end (as `re.finditer` does). -/
def finditerAux (text pat : List Char) : Nat → Nat → List Nat
  | 0, _ => []
  | fuel + 1, i =>
    if matchesAt text pat i && wordBoundaryAt text i &&
        wordBoundaryAt text (i + pat.length) then
      i :: finditerAux text pat fuel (i + pat.length)
    else
      finditerAux text pat fuel (i + 1)

/-- Model of `re.finditer(r'\b' + re.escape(pat) + r'\b', text)`: the start
offsets of all word-boundary-delimited occurrences of `pat`. -/
def finditerWB (text pat : List Char) : List Nat :=
  finditerAux text pat (text.length + 1) 0

/-- core/semantic_analyzer.py: SemanticAnalyzer.detect_markers with the
default lexicon.  For every relation type and every keyword, in lexicon
order, the pair is reported when the keyword occurs in the text as a
substring. -/
def detect_markers (text : List Char) : List (List Char × RelationType) :=
  SEMANTIC_MARKERS.flatMap fun cfg =>
    (cfg.2.filter fun keyword => containsSub keyword text).map fun keyword => (keyword, cfg.1)

/-- core/semantic_analyzer.py (split_by_markers): the sorted split points.
One entry `(offset, marker, relation_type)` per word-boundary occurrence of
a detected marker, sorted by offset ascending with a stable sort. -/
def split_points (text : List Char) (found : List (List Char × RelationType)) :
    List (Nat × List Char × RelationType) :=
  pySort (fun a b => decide (a.1 ≤ b.1))
    (found.flatMap fun mr => (finditerWB text mr.1).map fun p => (p, mr.1, mr.2))

/-- core/semantic_analyzer.py (split_by_markers loop body): the sub-segment
built for the slice `[last_pos, pos)`, with timestamps interpolated by
character ratio.  Fields not passed to the constructor keep the dataclass
defaults. -/
def mkSubSegment (seg : Segment) (i : Nat) (last_pos pos : Nat) : Segment :=
  { id := seg.id ++ ("_sub") ++ toString i
    start_time := seg.start_time + ((last_pos : ℚ) / (seg.text.length : ℚ)) * seg.duration
    end_time := seg.start_time + ((pos : ℚ) / (seg.text.length : ℚ)) * seg.duration
    audio_path := seg.audio_path
    text := pyStrip ((seg.text.drop last_pos).take (pos - last_pos))
    markers := []
    confidence := seg.confidence }

/-- core/semantic_analyzer.py (split_by_markers main loop): walk the split
points, emitting a sub-segment for each non-empty stripped slice; returns
the emitted sub-segments and the final value of `last_pos`. -/
def splitLoop (seg : Segment) :
    List (Nat × List Char × RelationType) → Nat → Nat → List Segment × Nat
  | [], _, last_pos => ([], last_pos)
  | (pos, _, _) :: rest, i, last_pos =>
    let sub_text := pyStrip ((seg.text.drop last_pos).take (pos - last_pos))
    let res := splitLoop seg rest (i + 1) pos
    (if sub_text = [] then res.1 else mkSubSegment seg i last_pos pos :: res.1, res.2)

/-- Error raised by the embedded Python code. -/
inductive PyError where
  | typeError
deriving DecidableEq

/-- core/semantic_analyzer.py: SemanticAnalyzer.split_by_markers.  When no
marker or no word-boundary occurrence is found the segment is returned
unchanged.  Otherwise, after the loop, the code builds the trailing
sub-segment; its markers list comprehension rebinds the underscore to the
relation type of each split point and evaluates the comparison
relation_type >= last_pos, which raises TypeError on the first element
(plain Enum members are unordered against int).  The comprehension is
evaluated whenever the stripped trailing text is non-empty and the split
point list is non-empty, which is exactly this branch. -/
def split_by_markers (seg : Segment) : Except PyError (List Segment) :=
  let text := seg.text
  let markers := detect_markers text
  if markers = [] then Except.ok [seg]
  else
    let sps := split_points text markers
    if sps = [] then Except.ok [seg]
    else
      let res := splitLoop seg sps 0 0
      let last_text := pyStrip (text.drop res.2)
      if last_text = [] then Except.ok (if res.1 = [] then [seg] else res.1)
      else Except.error PyError.typeError

/-- core/semantic_analyzer.py (calculate_importance, inner loop): the bonus
a single matched marker contributes.  The `break` leaves the inner loop at
the first lexicon entry whose keyword list contains the marker; the bonus
is 0.3 for SUMMARY, 0.2 for CAUSALITY, 0 otherwise. -/
def markerTypeBonus (marker : List Char) : ℚ :=
  match SEMANTIC_MARKERS.find? fun cfg => cfg.2.contains marker with
  | some cfg =>
      if cfg.1 = RelationType.SUMMARY then 3/10
      else if cfg.1 = RelationType.CAUSALITY then 2/10
      else 0
  | none => 0

/-- core/semantic_analyzer.py: SemanticAnalyzer.calculate_importance.  Base
0.5, plus the per-marker type bonuses (the outer loop runs over all matched
markers, so bonuses accumulate), plus min(0.1 * reference_count, 0.3), plus
0.1 for text longer than 100 characters, clamped from above at 1. -/
def calculate_importance (segment : Segment) (all_segments : List Segment) : ℚ :=
  let score1 := 1/2 + (segment.markers.map markerTypeBonus).sum
  let reference_count :=
    ((all_segments.flatMap fun s => s.relations).filter fun r =>
      r.target_id == segment.id || r.source_id == segment.id).length
  let score2 := score1 + pyMin ((reference_count : ℚ) * (1/10)) (3/10)
  let score3 := if 100 < segment.text.length then score2 + 1/10 else score2
  pyMin score3 1

/-- core/audio_segmenter.py (merge_short_segments loop): accumulate ranges;
while the current accumulated range is shorter than the minimum, extend its
end to the next range's end; otherwise emit it and restart from the next
range.  The final accumulated range is always appended. -/
def mergeLoop (min_duration_ms : Int) (cur : Int × Int) :
    List (Int × Int) → List (Int × Int)
  | [] => [cur]
  | (s, e) :: rest =>
    if cur.2 - cur.1 < min_duration_ms then mergeLoop min_duration_ms (cur.1, e) rest
    else cur :: mergeLoop min_duration_ms (s, e) rest

/-- core/audio_segmenter.py: AudioSegmenter.merge_short_segments. -/
def merge_short_segments (min_duration_ms : Int) :
    List (Int × Int) → List (Int × Int)
  | [] => []
  | (s, e) :: rest => mergeLoop min_duration_ms (s, e) rest

/-- core/audio_segmenter.py: AudioSegmenter.split_long_segments.  A range
longer than the maximum is divided into `int(duration / max) + 1` equal
sub-ranges with truncated endpoints; other ranges pass through. -/
def split_long_segments (max_duration_ms : Int) (segments : List (Int × Int)) :
    List (Int × Int) :=
  segments.flatMap fun se =>
    let duration := se.2 - se.1
    if max_duration_ms < duration then
      let num_splits : Int := pyInt ((duration : ℚ) / (max_duration_ms : ℚ)) + 1
      let split_duration : ℚ := (duration : ℚ) / (num_splits : ℚ)
      (List.range num_splits.toNat).map fun (i : ℕ) =>
        (pyInt ((se.1 : ℚ) + (i : ℚ) * split_duration),
         pyInt ((se.1 : ℚ) + ((i : ℚ) + 1) * split_duration))
    else [se]

/-- models/document.py: Segment.format_timestamp.  Python computes
`int(t // 60)` and `int(t % 60)` on float seconds and renders each with
`{:02d}` padding. -/
def format_timestamp (seg : Segment) : String :=
  let pad2 (n : Int) : String :=
    if 0 ≤ n ∧ n < 10 then ("0") ++ toString n else toString n
  let fdiv (a b : ℚ) : Int := ratFloor (a / b)
  let fmod (a b : ℚ) : Int := pyInt (a - b * (ratFloor (a / b) : ℚ))
  pad2 (fdiv seg.start_time 60) ++ (":") ++ pad2 (fmod seg.start_time 60) ++
    (" - ") ++ pad2 (fdiv seg.end_time 60) ++ (":") ++ pad2 (fmod seg.end_time 60)

/-- core/logic_reconstructor.py (analyze_logic_structure): the per-segment
payload serialised for the paragraph-analysis collaborator. -/
structure SegmentData where
  id : String
  text : List Char
  timestamp : String
  markers : List (List Char)
  topics : List String
deriving DecidableEq

/-- A paragraph-relation descriptor inside the collaborator's analysis
result.  It is carried around but never read by the reconstructor
(treated as informational), so its fields are modelled loosely. -/
structure RelationDescriptor where
  source : Option String := none
  target : Option String := none
  relation : Option String := none
deriving DecidableEq

/-- A logic-chain descriptor inside the collaborator's analysis result.
`none` models a missing dict key, defaulted by `.get` in
`build_logic_chains`. -/
structure ChainData where
  chain_id : Option String := none
  chain_type : Option String := none
  segments : Option (List String) := none
  description : Option String := none
  importance : Option ℚ := none
deriving DecidableEq

/-- The topic-tree structure synthesised or received by
`build_topic_tree`. -/
structure TopicTree where
  main_topic : String
  subtopics : List (String × List String)
deriving DecidableEq

/-- core/logic_reconstructor.py: the shape of the collaborator's
paragraph-analysis result after the `.get(..., default)` reads the
reconstructor performs.  `topic_tree = none` models a missing or empty
(falsy) dict. -/
structure AnalysisResult where
  core_arguments : List String
  supporting_points : List String
  logic_chains : List ChainData
  paragraph_relations : List RelationDescriptor
  topic_tree : Option TopicTree
deriving DecidableEq

/-- core/logic_reconstructor.py (analyze_logic_structure, except branch):
the all-empty result substituted when the collaborator call raises. -/
def emptyAnalysis : AnalysisResult :=
  { core_arguments := []
    supporting_points := []
    logic_chains := []
    paragraph_relations := []
    topic_tree := none }

/-- core/logic_reconstructor.py: LogicReconstructor.extract_topics_for_segments.
Segments with non-empty text get the collaborator's topics, or an empty
list when the call fails; segments with empty text are untouched. -/
def extract_topics_for_segments {ε : Type}
    (extractTopics : List Char → Except ε (List String))
    (segments : List Segment) : List Segment :=
  segments.map fun segment =>
    if segment.text = [] then segment
    else
      match extractTopics segment.text with
      | Except.ok topics => { segment with topics := topics }
      | Except.error _ => { segment with topics := [] }

/-- core/logic_reconstructor.py: LogicReconstructor.analyze_logic_structure.
Serialises the segments and calls the collaborator once; on failure the
all-empty result is substituted. -/
def analyze_logic_structure {ε : Type}
    (analyzeParagraphs : List SegmentData → Except ε AnalysisResult)
    (segments : List Segment) : AnalysisResult :=
  let segments_data := segments.map fun seg =>
    { id := seg.id, text := seg.text, timestamp := format_timestamp seg,
      markers := seg.markers, topics := seg.topics : SegmentData }
  match analyzeParagraphs segments_data with
  | Except.ok analysis_result => analysis_result
  | Except.error _ => emptyAnalysis

/-- core/logic_reconstructor.py: LogicReconstructor.build_logic_chains.
One LogicChain per descriptor, with the dict-get defaults of the source. -/
def build_logic_chains (analysis_result : AnalysisResult) : List LogicChain :=
  analysis_result.logic_chains.map fun chain_data =>
    { chain_id := chain_data.chain_id.getD ("")
      chain_type := chain_data.chain_type.getD ("UNKNOWN")
      segments := chain_data.segments.getD []
      description := chain_data.description.getD ("")
      importance := chain_data.importance.getD (1/2) }

/-- core/logic_reconstructor.py: LogicReconstructor.mark_core_arguments.
Segments whose id is in the core list get the flag and a score raised to
at least 0.9; all other segments are untouched. -/
def mark_core_arguments (segments : List Segment) (core_ids : List String) :
    List Segment :=
  segments.map fun segment =>
    if core_ids.contains segment.id then
      { segment with
          is_core_argument := true
          importance_score := pyMax segment.importance_score (9/10) }
    else segment

/-- core/logic_reconstructor.py (build_topic_tree fallback): group segment
ids by topic label, preserving first-seen topic order (Python dict
insertion order). -/
def addTopic (acc : List (String × List String)) (topic : String) (sid : String) :
    List (String × List String) :=
  if acc.any fun p => p.1 == topic then
    acc.map fun p => if p.1 == topic then (p.1, p.2 ++ [sid]) else p
  else acc ++ [(topic, [sid])]

/-- core/logic_reconstructor.py: LogicReconstructor.build_topic_tree.  A
non-empty collaborator tree is used verbatim; otherwise a tree with the
generic root and one child per distinct topic is synthesised. -/
def build_topic_tree (segments : List Segment) (topic_tree_data : Option TopicTree) :
    TopicTree :=
  match topic_tree_data with
  | some t => t
  | none =>
    let topic_segments := segments.foldl
      (fun acc seg => seg.topics.foldl (fun acc2 topic => addTopic acc2 topic seg.id) acc) []
    { main_topic := "文档主题", subtopics := topic_segments }

/-- Document metadata counts assembled by `reconstruct`. -/
structure Metadata where
  core_arguments_count : Nat
  logic_chains_count : Nat
  total_topics : Nat
deriving DecidableEq

/-- models/document.py: Document dataclass (source_file is set by the
caller after assembly; the wall-clock creation timestamp is outside the
model). -/
structure Document where
  source_file : String
  segments : List Segment
  logic_chains : List LogicChain
  topic_tree : TopicTree
  metadata : Metadata
deriving DecidableEq

/-- models/document.py: Document.get_core_arguments. -/
def Document.get_core_arguments (d : Document) : List Segment :=
  d.segments.filter fun seg => seg.is_core_argument

/-- core/logic_reconstructor.py: LogicReconstructor.reconstruct, with the
two collaborator operations passed as parameters. -/
def reconstruct {ε : Type}
    (extractTopics : List Char → Except ε (List String))
    (analyzeParagraphs : List SegmentData → Except ε AnalysisResult)
    (segments : List Segment) : Document :=
  let segments1 := extract_topics_for_segments extractTopics segments
  let analysis_result := analyze_logic_structure analyzeParagraphs segments1
  let logic_chains := build_logic_chains analysis_result
  let core_argument_ids := analysis_result.core_arguments
  let segments2 := mark_core_arguments segments1 core_argument_ids
  let topic_tree := build_topic_tree segments2 analysis_result.topic_tree
  { source_file := ""
    segments := segments2
    logic_chains := logic_chains
    topic_tree := topic_tree
    metadata :=
      { core_arguments_count := core_argument_ids.length
        logic_chains_count := logic_chains.length
        total_topics := (segments2.flatMap fun seg => seg.topics).dedup.length } }

/-- Concrete text of the C1 scenario from the spec. -/
def sampleTextC1 : List Char := kw ("我们首先要理解哲学的本质。但是这个问题很复杂。")

/-- A segment wrapping the C1 scenario text. -/
def sampleSegC1 : Segment :=
  { id := "seg_1", start_time := 0, end_time := 10,
    audio_path := "test.wav", text := sampleTextC1 }

/-- A segment on which `split_by_markers` actually reaches the trailing
sub-segment construction: the marker 但是 at offset 0 is followed by the
full-width comma, so both regex word boundaries hold. -/
def sampleSegC2 : Segment :=
  { id := "s1", start_time := 0, end_time := 10,
    audio_path := "a.wav", text := kw ("但是，这个问题很复杂") }

/-- A segment carrying both a SUMMARY marker and a CAUSALITY marker. -/
def sampleSegC4 : Segment :=
  { id := "s4", start_time := 0, end_time := 1,
    audio_path := "a.wav", markers := [kw ("总之"), kw ("所以")] }

/-- A plain segment fed to the reconstructor in concrete scenarios. -/
def sampleSegC8 : Segment :=
  { id := "seg_a", start_time := 0, end_time := 5, audio_path := "a.wav" }

/-- A topic-extraction collaborator whose every call fails. -/
def failTopicsC8 : List Char → Except Unit (List String) := fun _ => Except.error ()

/-- A paragraph-analysis collaborator whose every call fails. -/
def failAnalyzeC8 : List SegmentData → Except Unit AnalysisResult := fun _ => Except.error ()

/-- A topic-extraction collaborator whose every call fails, used alongside
the C9 analysis collaborator. -/
def topicsCexC9 : List Char → Except Unit (List String) := fun _ => Except.error ()

/-- A paragraph-analysis collaborator answering with a core-argument id that
matches no segment. -/
def analyzeCexC9 : List SegmentData → Except Unit AnalysisResult := fun _ =>
  Except.ok
    { core_arguments := ["seg_x"]
      supporting_points := []
      logic_chains := []
      paragraph_relations := []
      topic_tree := none }

/-! ### Helper lemmas -/

theorem pyMax_eq_max (a b : ℚ) : pyMax a b = max a b := by
  rw [pyMax]
  by_cases h : b ≤ a
  · rw [if_pos h, max_eq_left h]
  · rw [if_neg h, max_eq_right (le_of_not_le h)]

theorem mem_pyInsert {α : Type} (le : α → α → Bool) (x a : α) :
    ∀ l : List α, a ∈ pyInsert le x l ↔ a = x ∨ a ∈ l := by
  intro l
  induction l with
  | nil => simp [pyInsert]
  | cons y ys ih =>
    by_cases h : le x y
    · simp [pyInsert, h]
    · simp only [pyInsert, if_neg h, List.mem_cons, ih]
      tauto

theorem mem_pySort {α : Type} (le : α → α → Bool) (a : α) :
    ∀ l : List α, a ∈ pySort le l ↔ a ∈ l := by
  intro l
  induction l with
  | nil => simp [pySort]
  | cons x xs ih => simp [pySort, mem_pyInsert, ih]

theorem finditerAux_matches (text pat : List Char) :
    ∀ (fuel i p : Nat), p ∈ finditerAux text pat fuel i → matchesAt text pat p = true := by
  intro fuel
  induction fuel with
  | zero => intro i p h; simp [finditerAux] at h
  | succ n ih =>
    intro i p h
    simp only [finditerAux] at h
    by_cases hc : (matchesAt text pat i && wordBoundaryAt text i &&
        wordBoundaryAt text (i + pat.length)) = true
    · rw [if_pos hc] at h
      rcases List.mem_cons.1 h with h1 | h1
      · subst h1
        simp only [Bool.and_eq_true] at hc
        exact hc.1.1
      · exact ih _ _ h1
    · rw [if_neg hc] at h
      exact ih _ _ h

theorem split_points_mem (text : List Char) (found : List (List Char × RelationType))
    (x : Nat × List Char × RelationType) (hx : x ∈ split_points text found) :
    ∃ mr ∈ found, matchesAt text mr.1 x.1 = true := by
  rw [split_points, mem_pySort] at hx
  rcases List.mem_flatMap.1 hx with ⟨mr, hmr, hx2⟩
  rcases List.mem_map.1 hx2 with ⟨p, hp, rfl⟩
  exact ⟨mr, hmr, finditerAux_matches _ _ _ _ _ hp⟩

theorem detect_markers_mem (text m : List Char) (rt : RelationType)
    (h : (m, rt) ∈ detect_markers text) : m ∈ allKeywords := by
  rw [detect_markers] at h
  rcases List.mem_flatMap.1 h with ⟨cfg, hcfg, h2⟩
  rcases List.mem_map.1 h2 with ⟨k, hk, hEq⟩
  cases hEq
  exact List.mem_flatMap.2 ⟨cfg, hcfg, (List.mem_filter.1 hk).1⟩

theorem allKeywords_wf :
    ∀ m ∈ allKeywords, m ≠ [] ∧ ∀ c ∈ m, c.isWhitespace = false := by decide

theorem pyStrip_eq_nil (s : List Char) (h : pyStrip s = []) :
    ∀ c ∈ s, c.isWhitespace = true := by
  rw [pyStrip, List.reverse_eq_nil_iff, List.dropWhile_eq_nil_iff] at h
  intro c hc
  rw [← List.takeWhile_append_dropWhile Char.isWhitespace s] at hc
  rcases List.mem_append.1 hc with h1 | h1
  · exact List.mem_takeWhile_imp h1
  · exact h c (List.mem_reverse.2 h1)

theorem splitLoop_snd (seg : Segment) :
    ∀ (sps : List (Nat × List Char × RelationType)) (i last_pos : Nat), sps ≠ [] →
      ∃ x ∈ sps, (splitLoop seg sps i last_pos).2 = x.1 := by
  intro sps
  induction sps with
  | nil => intro i lp h; exact absurd rfl h
  | cons y rest ih =>
    intro i lp _
    rcases y with ⟨pos, m, rt⟩
    by_cases hr : rest = []
    · subst hr
      exact ⟨(pos, m, rt), List.mem_cons_self _ _, by simp [splitLoop]⟩
    · rcases ih (i + 1) pos hr with ⟨x, hx, hsnd⟩
      exact ⟨x, List.mem_cons_of_mem _ hx, by simpa [splitLoop] using hsnd⟩

theorem split_by_markers_ok_eq (seg : Segment) (subs : List Segment)
    (h : split_by_markers seg = Except.ok subs) : subs = [seg] := by
  rw [split_by_markers] at h
  by_cases h1 : detect_markers seg.text = []
  · rw [if_pos h1] at h
    exact (Except.ok.inj h).symm
  · rw [if_neg h1] at h
    by_cases h2 : split_points seg.text (detect_markers seg.text) = []
    · rw [if_pos h2] at h
      exact (Except.ok.inj h).symm
    · rw [if_neg h2] at h
      have hlast : pyStrip (seg.text.drop
          (splitLoop seg (split_points seg.text (detect_markers seg.text)) 0 0).2) ≠ [] := by
        intro hnil
        have hforall := pyStrip_eq_nil _ hnil
        obtain ⟨x, hxmem, hxeq⟩ := splitLoop_snd seg _ 0 0 h2
        obtain ⟨mr, hmr, hmatch⟩ := split_points_mem _ _ _ hxmem
        obtain ⟨hne, hnws⟩ := allKeywords_wf mr.1 (detect_markers_mem _ _ mr.2 hmr)
        have heq : (seg.text.drop x.1).take mr.1.length = mr.1 := by
          rw [matchesAt] at hmatch
          exact eq_of_beq hmatch
        obtain ⟨c, hc⟩ := List.exists_mem_of_ne_nil mr.1 hne
        have hcdrop : c ∈ seg.text.drop x.1 := by
          rw [← heq] at hc
          exact List.take_subset _ _ hc
        rw [← hxeq] at hcdrop
        have := hforall c hcdrop
        rw [hnws c hc] at this
        exact Bool.false_ne_true this
      rw [if_neg hlast] at h
      exact absurd h (by simp)

theorem mergeLoop_ne_nil (min_duration_ms : Int) :
    ∀ (rest : List (Int × Int)) (cur : Int × Int),
      mergeLoop min_duration_ms cur rest ≠ [] := by
  intro rest
  induction rest with
  | nil => intro cur; simp [mergeLoop]
  | cons y ys ih =>
    intro cur
    rcases y with ⟨a, b⟩
    rw [mergeLoop]
    by_cases h : cur.2 - cur.1 < min_duration_ms
    · rw [if_pos h]; exact ih _
    · rw [if_neg h]; simp

theorem mergeLoop_dropLast (min_duration_ms : Int) :
    ∀ (rest : List (Int × Int)) (cur : Int × Int),
      ∀ r ∈ (mergeLoop min_duration_ms cur rest).dropLast,
        min_duration_ms ≤ r.2 - r.1 := by
  intro rest
  induction rest with
  | nil => intro cur r hr; simp [mergeLoop] at hr
  | cons y ys ih =>
    intro cur r hr
    rcases y with ⟨a, b⟩
    rw [mergeLoop] at hr
    by_cases h : cur.2 - cur.1 < min_duration_ms
    · rw [if_pos h] at hr
      exact ih _ r hr
    · rw [if_neg h] at hr
      rcases hL : mergeLoop min_duration_ms (a, b) ys with _ | ⟨z, zs⟩
      · exact absurd hL (mergeLoop_ne_nil min_duration_ms ys (a, b))
      · rw [hL, List.dropLast_cons₂] at hr
        rcases List.mem_cons.1 hr with h1 | h1
        · subst h1; exact not_lt.1 h
        · exact ih (a, b) r (by rw [hL]; exact h1)

theorem pyInt_eq_floor (q : ℚ) (hq : 0 ≤ q) : pyInt q = ⌊q⌋ := by
  rw [pyInt, Rat.floor_def]
  exact Int.tdiv_eq_ediv (Rat.num_nonneg.2 hq) (Int.natCast_nonneg _)

theorem floor_intCast_div (d m : ℤ) (hm : 0 < m) : ⌊(d : ℚ) / (m : ℚ)⌋ = d / m := by
  have h1 : ((m.toNat : ℕ) : ℤ) = m := Int.toNat_of_nonneg hm.le
  rw [← h1]
  push_cast
  exact Rat.floor_intCast_div_natCast d m.toNat

theorem pyInt_intCast_div (d m : ℤ) (hm : 0 < m) (hd : 0 ≤ d) :
    pyInt ((d : ℚ) / (m : ℚ)) = d / m := by
  have h1 : (0 : ℚ) ≤ (d : ℚ) := by exact_mod_cast hd
  have h2 : (0 : ℚ) ≤ (m : ℚ) := by exact_mod_cast hm.le
  rw [pyInt_eq_floor _ (div_nonneg h1 h2), floor_intCast_div _ _ hm]

theorem mark_core_filter_length (segments : List Segment) (core_ids : List String) :
    ((mark_core_arguments segments core_ids).filter fun s => s.is_core_argument).length =
      (segments.filter fun s => s.is_core_argument || core_ids.contains s.id).length := by
  rw [mark_core_arguments, ← List.countP_eq_length_filter, ← List.countP_eq_length_filter,
    List.countP_map]
  apply List.countP_congr
  intro s _
  by_cases hc : core_ids.contains s.id = true
  · have hm : s.id ∈ core_ids := by simpa using hc
    simp [Function.comp, hm]
  · have hm : s.id ∉ core_ids := by simpa using hc
    simp [Function.comp, hm]

/-! ### Claim theorems -/

/-- Claim C1, counterexample: on the scenario text, marker detection does
return the pair (但是, CONTRAST), but split_by_markers does not return two
non-empty sub-segments: the word-boundary regex finds no occurrence of the
marker (it is directly followed by a word character), so the segment comes
back unchanged and the result has length one. -/
theorem C1_counterexample :
    (kw ("但是"), RelationType.CONTRAST) ∈ detect_markers sampleTextC1 ∧
    ¬ ∃ subs : List Segment,
        split_by_markers sampleSegC1 = Except.ok subs ∧ subs.length = 2 := by
  refine ⟨by decide, ?_⟩
  rintro ⟨subs, hok, hlen⟩
  have heval : split_by_markers sampleSegC1 = Except.ok [sampleSegC1] := rfl
  rw [heval] at hok
  rw [← Except.ok.inj hok] at hlen
  simp at hlen

/-- Claim C1, amended: marker detection on the scenario text returns at
least the pair (但是, CONTRAST), and split_by_markers on a segment wrapping
exactly this text returns exactly one sub-segment, namely the original
segment unchanged, because the word-boundary regex matches no occurrence of
the detected marker. -/
theorem C1_theorem :
    (kw ("但是"), RelationType.CONTRAST) ∈ detect_markers sampleTextC1 ∧
    split_by_markers sampleSegC1 = Except.ok [sampleSegC1] :=
  ⟨by decide, rfl⟩

/-- Claim C2: evaluation at the failing input.  On a segment whose text
carries a word-boundary occurrence of a marker, split_by_markers raises
TypeError while building the final sub-segment, instead of attaching the
markers of the occurrences at or beyond its start offset: the list
comprehension rebinds the underscore to the relation type and compares it
with an integer offset. -/
theorem C2_theorem :
    split_by_markers sampleSegC2 = Except.error PyError.typeError := rfl

/-- Claim C3, counterexample: a merged range of duration 60000 ms with a
maximum of 30000 ms has ceil(duration / max) = 2, but the split pass
divides it into 3 sub-ranges, because the code computes
int(duration / max) + 1 rather than the ceiling. -/
theorem C3_counterexample :
    ⌈((60000 : ℚ) - 0) / 30000⌉ = 2 ∧
      (split_long_segments 30000 [(0, 60000)]).length ≠ 2 := by
  constructor
  · have h : ((60000 : ℚ) - 0) / 30000 = 2 := by norm_num
    rw [h]
    exact_mod_cast Int.ceil_intCast (α := ℚ) 2
  · rw [split_long_segments]
    simp only [List.flatMap_cons, List.flatMap_nil, List.append_nil]
    rw [if_pos (show (30000 : ℤ) < ((0 : ℤ), (60000 : ℤ)).2 - ((0 : ℤ), (60000 : ℤ)).1 by decide)]
    rw [List.length_map, List.length_range]
    rw [show (((0 : ℤ), (60000 : ℤ)).2 - ((0 : ℤ), (60000 : ℤ)).1 : ℤ) = (60000 : ℤ) from rfl]
    rw [pyInt_intCast_div 60000 30000 (by decide) (by decide)]
    decide

/-- Claim C3, amended: a merged range whose duration exceeds the maximum is
divided into floor(duration / max) + 1 sub-ranges (which equals
ceil(duration / max) exactly when the maximum does not divide the duration,
and one more when it does); a range with duration at or below the maximum
passes through unchanged. -/
theorem C3_theorem (max_ms s e : Int) (hmax : 0 < max_ms) :
    (max_ms < e - s →
      (split_long_segments max_ms [(s, e)]).length = ((e - s) / max_ms + 1).toNat) ∧
    (e - s ≤ max_ms → split_long_segments max_ms [(s, e)] = [(s, e)]) := by
  constructor
  · intro hgt
    rw [split_long_segments]
    simp only [List.flatMap_cons, List.flatMap_nil, List.append_nil]
    rw [if_pos (show max_ms < (s, e).2 - (s, e).1 from hgt)]
    rw [List.length_map, List.length_range]
    rw [show ((s, e).2 - (s, e).1 : ℤ) = e - s from rfl]
    rw [pyInt_intCast_div _ _ hmax (le_of_lt (lt_trans hmax hgt))]
  · intro hle
    rw [split_long_segments]
    simp only [List.flatMap_cons, List.flatMap_nil, List.append_nil]
    rw [if_neg (not_lt.2 (show (s, e).2 - (s, e).1 ≤ max_ms from hle))]

/-- Claim C3, witness: the long-range branch of the amended statement at a
concrete input. -/
theorem C3_witness :
    (split_long_segments 30000 [(0, 60000)]).length =
      (((60000 : ℤ) - 0) / 30000 + 1).toNat :=
  (C3_theorem 30000 0 60000 (by decide)).1 (by decide)

/-- Claim C4, counterexample: a segment carrying both a SUMMARY marker and
a CAUSALITY marker (and nothing else contributing) scores
0.5 + 0.3 + 0.2 = 1, not the 0.5 + 0.3 = 0.8 the claim predicts: the break
statement only leaves the inner lexicon loop, so per-marker bonuses
stack. -/
theorem C4_counterexample :
    calculate_importance sampleSegC4 [] = 1 ∧ ((1 : ℚ) ≠ 1/2 + 3/10) := by
  constructor
  · have h1 : markerTypeBonus (kw ("总之")) = 3/10 := rfl
    have h2 : markerTypeBonus (kw ("所以")) = 2/10 := rfl
    simp only [calculate_importance, sampleSegC4, List.map_cons, List.map_nil,
      List.sum_cons, List.sum_nil, h1, h2, List.flatMap_nil, List.filter_nil,
      List.length_nil]
    norm_num [pyMin]
  · norm_num

/-- Claim C4, amended: each matched marker contributes its own bonus (0.3
when the first lexicon type containing it is SUMMARY, 0.2 when it is
CAUSALITY), and the per-marker bonuses are summed over the marker list
before the final clamp at 1; in particular a segment with one SUMMARY and
one CAUSALITY marker, no referencing relations and short text scores
exactly 1 = min(0.5 + 0.3 + 0.2, 1). -/
theorem C4_theorem (seg : Segment) (all_segments : List Segment) (m1 m2 : List Char)
    (hm : seg.markers = [m1, m2])
    (h1 : markerTypeBonus m1 = 3/10) (h2 : markerTypeBonus m2 = 2/10)
    (hrel : ∀ s ∈ all_segments, ∀ r ∈ s.relations,
      r.target_id ≠ seg.id ∧ r.source_id ≠ seg.id)
    (hlen : seg.text.length ≤ 100) :
    calculate_importance seg all_segments = 1 := by
  have hfilter : ((all_segments.flatMap fun s => s.relations).filter fun r =>
      r.target_id == seg.id || r.source_id == seg.id) = [] := by
    rw [List.filter_eq_nil_iff]
    intro r hr
    rcases List.mem_flatMap.1 hr with ⟨s, hs, hrs⟩
    rcases hrel s hs r hrs with ⟨ht, hsrc⟩
    simp [ht, hsrc]
  simp only [calculate_importance, hm, hfilter, List.map_cons, List.map_nil,
    List.sum_cons, List.sum_nil, h1, h2, List.length_nil]
  rw [if_neg (not_lt.2 hlen)]
  norm_num [pyMin]

/-- Claim C4, witness: the amended statement applied at the concrete
segment with markers 总之 and 所以. -/
theorem C4_witness : calculate_importance sampleSegC4 [] = 1 :=
  C4_theorem sampleSegC4 [] (kw ("总之")) (kw ("所以")) rfl rfl rfl
    (by simp) (by decide)

/-- Claim C5: every range emitted by the merge pass, except possibly the
last one, has duration at least the minimum segment duration; and on
non-empty input the merge pass always emits at least one (final) range. -/
theorem C5_theorem (min_duration_ms : Int) (segments : List (Int × Int)) :
    (∀ r ∈ (merge_short_segments min_duration_ms segments).dropLast,
        min_duration_ms ≤ r.2 - r.1) ∧
    (segments ≠ [] → merge_short_segments min_duration_ms segments ≠ []) := by
  constructor
  · intro r hr
    cases segments with
    | nil => simp [merge_short_segments] at hr
    | cons y ys =>
      rcases y with ⟨a, b⟩
      exact mergeLoop_dropLast _ _ _ r (by simpa [merge_short_segments] using hr)
  · intro h
    cases segments with
    | nil => exact absurd rfl h
    | cons y ys =>
      rcases y with ⟨a, b⟩
      simpa [merge_short_segments] using mergeLoop_ne_nil min_duration_ms ys (a, b)

/-- Claim C5, witness: at a concrete range list whose middle range is
short, the non-final emitted range meets the minimum and the merge output
is non-empty. -/
theorem C5_witness :
    ((1500 : ℤ) ≤ 2000 - 0) ∧
      merge_short_segments 1500 [(0, 2000), (2000, 2500), (2600, 4000)] ≠ [] :=
  ⟨(C5_theorem 1500 [(0, 2000), (2000, 2500), (2600, 4000)]).1 (0, 2000) (by decide),
   (C5_theorem 1500 [(0, 2000), (2000, 2500), (2600, 4000)]).2 (by decide)⟩

/-- Claim C6: every successful run of split_by_markers on a segment with
non-empty text yields sub-segments with monotonically non-decreasing
timestamps, each contained in the parent interval.  (Every successful run
returns the segment unchanged: a run that finds word-boundary occurrences
raises the C2 TypeError instead of returning.) -/
theorem C6_theorem (seg : Segment) (subs : List Segment) (hne : seg.text ≠ [])
    (h : split_by_markers seg = Except.ok subs) :
    List.Chain' (fun a b => a.end_time ≤ b.start_time) subs ∧
      ∀ s ∈ subs, seg.start_time ≤ s.start_time ∧ s.end_time ≤ seg.end_time := by
  have hs : subs = [seg] := split_by_markers_ok_eq seg subs h
  subst hs
  refine ⟨List.chain'_singleton _, ?_⟩
  intro s hs
  rw [List.mem_singleton] at hs
  subst hs
  exact ⟨le_refl _, le_refl _⟩

/-- Claim C6, witness: the scenario segment has non-empty text and a
successful split, so the theorem applies to it. -/
theorem C6_witness :
    List.Chain' (fun a b => a.end_time ≤ b.start_time) [sampleSegC1] ∧
      ∀ s ∈ [sampleSegC1], sampleSegC1.start_time ≤ s.start_time ∧
        s.end_time ≤ sampleSegC1.end_time :=
  C6_theorem sampleSegC1 [sampleSegC1] (by decide) rfl

/-- Claim C7: after core-argument marking, every segment whose id is in the
core list has its flag set and its score raised to the maximum of its
previous score and 0.9, and no segment ever loses importance score. -/
theorem C7_theorem (segments : List Segment) (core_ids : List String) :
    List.Forall₂ (fun s t =>
      (core_ids.contains s.id = true →
        t.is_core_argument = true ∧
          t.importance_score = max s.importance_score (9/10)) ∧
      s.importance_score ≤ t.importance_score)
      segments (mark_core_arguments segments core_ids) := by
  rw [mark_core_arguments, List.forall₂_map_right_iff, List.forall₂_same]
  intro s _
  by_cases hc : core_ids.contains s.id = true
  · rw [if_pos hc]
    refine ⟨fun _ => ⟨rfl, pyMax_eq_max _ _⟩, ?_⟩
    have h := le_max_left s.importance_score ((9 : ℚ)/10)
    rw [← pyMax_eq_max] at h
    exact h
  · rw [if_neg hc]
    exact ⟨fun h => absurd h hc, le_refl _⟩

/-- Claim C8: when every paragraph-analysis call fails, the reconstructor
behaves exactly as if the collaborator had returned the all-empty analysis
result: it still assembles and returns a Document, with no chains and a
zero core-argument count. -/
theorem C8_theorem {ε : Type} (extractTopics : List Char → Except ε (List String))
    (analyzeParagraphs : List SegmentData → Except ε AnalysisResult)
    (segments : List Segment) (err : ε)
    (hfail : ∀ payload, analyzeParagraphs payload = Except.error err) :
    reconstruct extractTopics analyzeParagraphs segments =
      reconstruct extractTopics (fun _ => Except.ok emptyAnalysis) segments ∧
    (reconstruct extractTopics analyzeParagraphs segments).logic_chains = [] ∧
    (reconstruct extractTopics analyzeParagraphs segments).metadata.core_arguments_count = 0 := by
  have hA : ∀ segs : List Segment,
      analyze_logic_structure analyzeParagraphs segs = emptyAnalysis := by
    intro segs
    rw [analyze_logic_structure, hfail]
  have hB : ∀ segs : List Segment,
      analyze_logic_structure
        (fun _ : List SegmentData => (Except.ok emptyAnalysis : Except ε AnalysisResult)) segs =
        emptyAnalysis := by
    intro segs
    rw [analyze_logic_structure]
  refine ⟨?_, ?_, ?_⟩
  · simp only [reconstruct, hA, hB]
  · simp only [reconstruct, hA]
    rfl
  · simp only [reconstruct, hA]
    rfl

/-- Claim C8, witness: the theorem applied to concrete always-failing
collaborators and a one-segment list. -/
theorem C8_witness :
    reconstruct failTopicsC8 failAnalyzeC8 [sampleSegC8] =
      reconstruct failTopicsC8 (fun _ => Except.ok emptyAnalysis) [sampleSegC8] ∧
    (reconstruct failTopicsC8 failAnalyzeC8 [sampleSegC8]).logic_chains = [] ∧
    (reconstruct failTopicsC8 failAnalyzeC8 [sampleSegC8]).metadata.core_arguments_count = 0 :=
  C8_theorem failTopicsC8 failAnalyzeC8 [sampleSegC8] () (fun _ => rfl)

/-- Claim C9, counterexample: on an empty segment list with an analysis
result naming one unknown core id, the metadata core-argument count is 1
while the document holds no core-flagged segment. -/
theorem C9_counterexample :
    (reconstruct topicsCexC9 analyzeCexC9 []).metadata.core_arguments_count = 1 ∧
    ((reconstruct topicsCexC9 analyzeCexC9 []).get_core_arguments).length = 0 ∧
    (1 : Nat) ≠ 0 :=
  ⟨rfl, rfl, by decide⟩

/-- Claim C9, amended: the metadata core-argument count equals the length
of the analysis result core-argument id list, while the number of
core-flagged segments in the document equals the number of segments that
either were already flagged or whose id occurs in that list; the two can
differ (unknown ids, duplicate ids, pre-flagged segments). -/
theorem C9_theorem {ε : Type} (extractTopics : List Char → Except ε (List String))
    (analyzeParagraphs : List SegmentData → Except ε AnalysisResult)
    (segments : List Segment) :
    (reconstruct extractTopics analyzeParagraphs segments).metadata.core_arguments_count =
      (analyze_logic_structure analyzeParagraphs
        (extract_topics_for_segments extractTopics segments)).core_arguments.length ∧
    ((reconstruct extractTopics analyzeParagraphs segments).get_core_arguments).length =
      ((extract_topics_for_segments extractTopics segments).filter fun s =>
        s.is_core_argument ||
          (analyze_logic_structure analyzeParagraphs
            (extract_topics_for_segments extractTopics segments)).core_arguments.contains
            s.id).length := by
  refine ⟨rfl, ?_⟩
  simp only [reconstruct, Document.get_core_arguments]
  exact mark_core_filter_length _ _

/-- Claim C10: core-argument marking leaves every segment whose id is not
in the core list entirely unchanged, and preserves the length (and, by the
positional correspondence, the order) of the segment list. -/
theorem C10_theorem (segments : List Segment) (core_ids : List String) :
    (mark_core_arguments segments core_ids).length = segments.length ∧
    List.Forall₂ (fun s t => core_ids.contains s.id = false → t = s)
      segments (mark_core_arguments segments core_ids) := by
  constructor
  · rw [mark_core_arguments, List.length_map]
  · rw [mark_core_arguments, List.forall₂_map_right_iff, List.forall₂_same]
    intro s _ hc
    rw [if_neg (show ¬ (core_ids.contains s.id = true) by rw [hc]; simp)]

end VoiceTool
